import Mathlib

/-!
# Verification of the UPDATE statement builder
  (`src/lib/core/models/queries/update.model.ts`)

A shallow embedding of the `QueryUpdate` builder of the
angular-cordova-sqlite-orm library, together with models of its
collaborators (`Clause`, `ClauseGroup`, `DbQuery`, the metadata registry)
that are described by the specification but whose sources are not part of
the analysed tree.  JavaScript values are embedded as `JsVal` with explicit
truthiness; the mutation that `build()` performs on the builder (folding
identity clauses into `whereClauses`) is made explicit by returning the
updated builder alongside the produced `DbQuery`.
-/

/-- A JavaScript value as it can appear in a model field, a clause value or
a query parameter: `null`, `undefined`, a boolean, an (integral) number or
a string. -/
inductive JsVal where
  | vNull : JsVal
  | vUndefined : JsVal
  | vBool : Bool → JsVal
  | vInt : Int → JsVal
  | vStr : String → JsVal
deriving DecidableEq

/-- JavaScript truthiness: `null`, `undefined`, `false`, `0` and `""` are
falsy, everything else is truthy. -/
def JsVal.truthy : JsVal → Bool
  | .vNull => false
  | .vUndefined => false
  | .vBool b => b
  | .vInt n => n != 0
  | .vStr s => !s.isEmpty

/-- Column metadata: SQL column name, model field name, primary-key flag
(the shape `getModel` returns per the spec's external-interface section). -/
structure Column where
  name : String
  field : String
  primaryKey : Bool
deriving DecidableEq

/-- Table metadata: table name and ordered column list. -/
structure TableMeta where
  name : String
  columnList : List Column
deriving DecidableEq

/-- A model instance: a bag of named fields plus the internal markers the
builder reads, `__rowid` and `__partialWithProjection` (an optional list of
column names; a JavaScript array is truthy exactly when present, which
`Option` captures). -/
structure DbHelperModel where
  fields : List (String × JsVal)
  __rowid : JsVal
  __partialWithProjection : Option (List String)
deriving DecidableEq

/-- Property read `(model as any)[f]`: an absent property is `undefined`. -/
def DbHelperModel.getField (m : DbHelperModel) (f : String) : JsVal :=
  match m.fields.lookup f with
  | some v => v
  | none => JsVal.vUndefined

/-- Modelled from the spec: `Clause` (not under `src/`) — a single
predicate with column key, comparator (default equality), value and
logical connector to the previous clause (default AND). -/
structure Clause where
  key : String
  operator : String
  value : JsVal
  connector : String
deriving DecidableEq

/-- Modelled from the spec: an entry of a `ClauseGroup` is a clause or a
nested group (nested groups render parenthesized). -/
inductive ClauseEntry where
  | clause : Clause → ClauseEntry
  | group : List ClauseEntry → ClauseEntry


/-- Modelled from the spec: `ClauseGroup` (not under `src/`) — an ordered
sequence of clause entries. -/
structure ClauseGroup where
  clauses : List ClauseEntry


/-- Modelled from the spec: the accepted input shapes of
`ClauseGroup.add` / `QueryUpdate.where` — a single clause, a clause array,
a nested group, or a plain key→value mapping read as implicit-equality
clauses joined by AND. -/
inductive ClauseInput where
  | one : Clause → ClauseInput
  | many : List Clause → ClauseInput
  | grp : ClauseGroup → ClauseInput
  | mapping : List (String × JsVal) → ClauseInput

/-- Modelled from the spec: `ClauseGroup.add` normalizes each accepted
input shape into entries appended at the end of the group. -/
def ClauseGroup.add (g : ClauseGroup) (input : ClauseInput) : ClauseGroup :=
  match input with
  | .one c => ⟨g.clauses ++ [ClauseEntry.clause c]⟩
  | .many cs => ⟨g.clauses ++ cs.map ClauseEntry.clause⟩
  | .grp h => ⟨g.clauses ++ [ClauseEntry.group h.clauses]⟩
  | .mapping kv =>
      ⟨g.clauses ++ kv.map (fun p => ClauseEntry.clause ⟨p.1, "=", p.2, "AND"⟩)⟩

/-- Modelled from the spec: `DbQuery` (not under `src/`) — table, statement
type, SQL text accumulator and ordered parameter list. -/
structure DbQuery where
  table : String
  type : String
  query : String
  params : List JsVal
deriving DecidableEq

/-- Modelled from the spec: `DbQuery.append` concatenates the other
fragment's text and parameters, preserving order. -/
def DbQuery.append (q other : DbQuery) : DbQuery :=
  ⟨q.table, q.type, q.query ++ other.query, q.params ++ other.params⟩

/-- The text of one rendered clause without its connector:
`<key> <operator> (?)`. -/
def clauseText (c : Clause) : String :=
  c.key ++ " " ++ c.operator ++ " (?)"

/-- Modelled from the spec: the left-to-right rendering of clause entries.
The first entry omits its leading connector; later clauses are prefixed by
their connector, nested groups by AND; entries are separated by single
spaces and a nested group renders as `( <inner> )`.  Returns the text and
the parameter list in placeholder order. -/
def renderEntries : List ClauseEntry → Bool → String × List JsVal
  | [], _ => ("", [])
  | ClauseEntry.clause c :: rest, first =>
      let head := (if first then "" else c.connector ++ " ") ++ clauseText c
      let tail := renderEntries rest false
      (head ++ (if rest.isEmpty then "" else " ") ++ tail.1, c.value :: tail.2)
  | ClauseEntry.group es :: rest, first =>
      let inner := renderEntries es true
      let tail := renderEntries rest false
      ((if first then "" else "AND ") ++ "( " ++ inner.1 ++ " )" ++
        (if rest.isEmpty then "" else " ") ++ tail.1,
       inner.2 ++ tail.2)

/-- Modelled from the spec: `ClauseGroup.build` renders the group into a
query fragment.  An empty group renders to empty text and empty parameters;
a non-empty group is rendered with a leading separator space (the builder
emits the bare ` WHERE` keyword before appending the fragment). -/
def ClauseGroup.build (g : ClauseGroup) : DbQuery :=
  let r := renderEntries g.clauses true
  ⟨"", "", if g.clauses.isEmpty then "" else " " ++ r.1, r.2⟩

/-- The group obtained from an optional group (lazily created when absent)
after adding an input — the effect of
`if (!this.whereClauses) this.whereClauses = new ClauseGroup();
this.whereClauses.add(clauses)`. -/
def optAdd : Option ClauseGroup → ClauseInput → ClauseGroup
  | none, i => ClauseGroup.add ⟨[]⟩ i
  | some g, i => ClauseGroup.add g i

/-- The `QueryUpdate<T>` builder state: the bound model, the constructor's
`partial` flag (named `isPartial` here because `partial` is reserved), and
the lazily created where-clause group. -/
structure QueryUpdate where
  model : DbHelperModel
  isPartial : Bool
  whereClauses : Option ClauseGroup

/-- The `Update(model, partial)` helper / `QueryUpdate` constructor:
a fresh builder with no where clauses. -/
def Update (model : DbHelperModel) (isPartial : Bool) : QueryUpdate :=
  ⟨model, isPartial, none⟩

/-- `QueryUpdate.where`: lazily initializes the clause group and delegates
to its `add`; returns the builder (the source mutates and returns `this`). -/
def QueryUpdate.whereQ (q : QueryUpdate) (clauses : ClauseInput) : QueryUpdate :=
  ⟨q.model, q.isPartial, some (optAdd q.whereClauses clauses)⟩

/-- The loop of `build()` lines 88–95: for each column flagged primary-key,
fold a clause `column.name = (model[column.field])` into `where()`. -/
def addPkClauses (q : QueryUpdate) (cols : List Column) : QueryUpdate :=
  cols.foldl
    (fun acc col =>
      if col.primaryKey then
        acc.whereQ (ClauseInput.one ⟨col.name, "=", acc.model.getField col.field, "AND"⟩)
      else acc)
    q

/-- The loop of `build()` lines 99–111: select the SET-list columns and
their values.  With a projection present, a column is kept iff its name is
in the projection or its current value is truthy; otherwise every column is
kept.  Returns (`columnsToUpdate`, `values`) in declared column order. -/
def setSelection (m : DbHelperModel) : List Column → List String × List JsVal
  | [] => ([], [])
  | col :: rest =>
      let tail := setSelection m rest
      let keep :=
        match m.__partialWithProjection with
        | some proj => proj.contains col.name || (m.getField col.field).truthy
        | none => true
      if keep then (col.name :: tail.1, m.getField col.field :: tail.2) else tail

/-- `Array.prototype.join`: concatenate with a separator between elements
(empty result on the empty list). -/
def joinSep (sep : String) : List String → String
  | [] => ""
  | [s] => s
  | s :: rest => s ++ sep ++ joinSep sep rest

/-- `build()` lines 79–121, after the metadata lookup succeeded: produce
the `DbQuery` and, the source mutating `this.whereClauses` through
`this.where(...)`, also the updated builder. -/
def QueryUpdate.buildWithTable (q : QueryUpdate) (table : TableMeta) :
    DbQuery × QueryUpdate :=
  let q1 :=
    if (q.model.__rowid).truthy then
      q.whereQ (ClauseInput.one ⟨"rowid", "=", q.model.__rowid, "AND"⟩)
    else
      addPkClauses q table.columnList
  let sel := setSelection q.model table.columnList
  let base : DbQuery :=
    ⟨table.name, "UPDATE",
      "UPDATE" ++ " " ++ table.name ++ " SET " ++ joinSep " = (?), " sel.1 ++ " = (?) ",
      sel.2⟩
  match q1.whereClauses with
  | some g => (DbQuery.append ⟨base.table, base.type, base.query ++ " WHERE", base.params⟩ g.build, q1)
  | none => (base, q1)

/-- Modelled from the spec: `ModelManager.getModel` (not under `src/`) —
a read-only registry lookup that fails for an unregistered model; the
registry is abstracted as a partial map from model instances to metadata. -/
def getModel (registry : DbHelperModel → Option TableMeta) (m : DbHelperModel) :
    Option TableMeta :=
  registry m

/-- `build()` line 78 plus the rest: the metadata lookup happens first and
its failure propagates before any `DbQuery` is constructed. -/
def QueryUpdate.build (registry : DbHelperModel → Option TableMeta)
    (q : QueryUpdate) : Option (DbQuery × QueryUpdate) :=
  match getModel registry q.model with
  | none => none
  | some table => some (q.buildWithTable table)

/-- Count of `?` placeholder characters in a query text (each rendered
placeholder `(?)` contains exactly one `?`). -/
def countPlaceholders (s : String) : Nat :=
  s.data.countP (fun c => c == '?')

/-- The where-clause entries that the identity loop of `build()` (lines
88–95) synthesizes: one equality clause per column flagged primary-key, in
declared column order. -/
def pkEntries (m : DbHelperModel) : List Column → List ClauseEntry
  | [] => []
  | col :: rest =>
      if col.primaryKey then
        ClauseEntry.clause ⟨col.name, "=", m.getField col.field, "AND"⟩ :: pkEntries m rest
      else pkEntries m rest

/-- The net effect of the identity loop on the optional where-clause group
(a pure rendition of the chained `this.where(...)` calls). -/
def pkFoldW (m : DbHelperModel) : Option ClauseGroup → List Column → Option ClauseGroup
  | w, [] => w
  | w, col :: rest =>
      if col.primaryKey then
        pkFoldW m (some (optAdd w (ClauseInput.one ⟨col.name, "=", m.getField col.field, "AND"⟩))) rest
      else pkFoldW m w rest

/-- The identity entries `build()` folds into the where group: the single
`rowid` clause when `__rowid` is truthy, else one clause per primary-key
column. -/
def idEntries (m : DbHelperModel) (cols : List Column) : List ClauseEntry :=
  if (m.__rowid).truthy then [ClauseEntry.clause ⟨"rowid", "=", m.__rowid, "AND"⟩]
  else pkEntries m cols

/-- `s` does not contain the character `ch`. -/
def charFree (ch : Char) (s : String) : Prop :=
  ∀ c ∈ s.data, c ≠ ch

instance charFreeDecidable (ch : Char) (s : String) : Decidable (charFree ch s) :=
  inferInstanceAs (Decidable (∀ c ∈ s.data, c ≠ ch))

/-- Fixture: the `todo` metadata of the spec's round-trip example (single
primary key `id`). -/
def tTodo : TableMeta :=
  ⟨"todo", [⟨"title", "title", false⟩, ⟨"done", "done", false⟩, ⟨"id", "id", true⟩]⟩

/-- Fixture: the instance `{title:"buy milk", done:false, id:7}` with no
partial projection and no row-identity value. -/
def mTodo : DbHelperModel :=
  ⟨[("title", JsVal.vStr "buy milk"), ("done", JsVal.vBool false), ("id", JsVal.vInt 7)],
   JsVal.vUndefined, none⟩

/-- Fixture: metadata with a single non-primary-key column `age`. -/
def tEmptySet : TableMeta := ⟨"t", [⟨"age", "age", false⟩]⟩

/-- Fixture: instance `{age:0}` with an empty partial projection, so the
SET-list filter excludes every column. -/
def mEmptySet : DbHelperModel := ⟨[("age", JsVal.vInt 0)], JsVal.vUndefined, some []⟩

/-- Fixture: metadata with a single non-primary-key column `a`. -/
def tSingleA : TableMeta := ⟨"t", [⟨"a", "a", false⟩]⟩

/-- Fixture: instance `{a:1}` carrying the truthy row identity 5. -/
def mRowid : DbHelperModel := ⟨[("a", JsVal.vInt 1)], JsVal.vInt 5, none⟩

/-- Fixture: instance `{a:1}` with no row identity and no projection. -/
def mPlain : DbHelperModel := ⟨[("a", JsVal.vInt 1)], JsVal.vUndefined, none⟩

/-- Fixture: metadata with a single primary-key column `id`. -/
def tSingleId : TableMeta := ⟨"t", [⟨"id", "id", true⟩]⟩

/-- Fixture: instance `{id:7}` whose row identity is the non-null but
falsy value 0. -/
def mRowidZero : DbHelperModel := ⟨[("id", JsVal.vInt 7)], JsVal.vInt 0, none⟩

/-- Fixture: a builder on which the caller added the where clause
`b = (?)` bound to `"x"` before `build()`. -/
def qCallerWhere : QueryUpdate :=
  (Update mRowid false).whereQ (ClauseInput.one ⟨"b", "=", JsVal.vStr "x", "AND"⟩)

/-- Fixture: metadata with columns `name` and `age`, no primary key. -/
def tNameAge : TableMeta := ⟨"t", [⟨"name", "name", false⟩, ⟨"age", "age", false⟩]⟩

/-- Fixture: instance `{name:"x", age:0}` in partial mode with projection
`{"name"}`. -/
def mNamePartial : DbHelperModel :=
  ⟨[("name", JsVal.vStr "x"), ("age", JsVal.vInt 0)], JsVal.vUndefined, some ["name"]⟩

/-- Fixture: instance `{name:"x", age:0}` in full mode (no projection). -/
def mNameFull : DbHelperModel :=
  ⟨[("name", JsVal.vStr "x"), ("age", JsVal.vInt 0)], JsVal.vUndefined, none⟩

/-- Fixture: metadata with two primary-key columns `a` and `b`. -/
def tTwoPk : TableMeta := ⟨"t", [⟨"a", "a", true⟩, ⟨"b", "b", true⟩]⟩

/-- Fixture: instance `{a:1, b:2}` with no row identity. -/
def mTwoPk : DbHelperModel :=
  ⟨[("a", JsVal.vInt 1), ("b", JsVal.vInt 2)], JsVal.vUndefined, none⟩

/-- Merging the literal space produced by `this.type + ' ' + dbQuery.table`. -/
theorem updateSpace (s : String) : "UPDATE" ++ (" " ++ s) = "UPDATE " ++ s := by
  rw [← String.append_assoc, show ("UPDATE" ++ " " : String) = "UPDATE " from rfl]

/-- Merging the bare ` WHERE` keyword with the fragment's leading space. -/
theorem whereSpace (s : String) : " WHERE" ++ (" " ++ s) = " WHERE " ++ s := by
  rw [← String.append_assoc, show (" WHERE" ++ " " : String) = " WHERE " from rfl]

/-- Merging a rendered entry separator with a following AND connector. -/
theorem spaceAnd (s : String) : " " ++ ("AND " ++ s) = " AND " ++ s := by
  rw [← String.append_assoc, show (" " ++ "AND " : String) = " AND " from rfl]

/-- The rendered text of a synthesized equality clause. -/
theorem clauseText_eq (n : String) (v : JsVal) :
    clauseText ⟨n, "=", v, "AND"⟩ = n ++ " = (?)" := by
  show n ++ " " ++ "=" ++ " (?)" = n ++ " = (?)"
  rw [String.append_assoc, String.append_assoc,
    show (" " ++ ("=" ++ " (?)") : String) = " = (?)" from rfl]

/-- `addPkClauses` only rewrites the `whereClauses` component, as computed
by `pkFoldW`. -/
theorem addPkClauses_eq (m : DbHelperModel) (p : Bool) :
    ∀ (cols : List Column) (w : Option ClauseGroup),
      addPkClauses ⟨m, p, w⟩ cols = ⟨m, p, pkFoldW m w cols⟩ := by
  intro cols
  induction cols with
  | nil => intro w; rfl
  | cons col rest ih =>
      intro w
      by_cases h : col.primaryKey
      · simpa [addPkClauses, QueryUpdate.whereQ, pkFoldW, h] using ih _
      · simpa [addPkClauses, pkFoldW, h] using ih _

/-- Folding primary-key clauses into an existing group appends the
synthesized entries after the entries already present. -/
theorem pkFoldW_some (m : DbHelperModel) :
    ∀ (cols : List Column) (g : ClauseGroup),
      pkFoldW m (some g) cols = some ⟨g.clauses ++ pkEntries m cols⟩ := by
  intro cols
  induction cols with
  | nil => intro g; cases g; simp [pkFoldW, pkEntries]
  | cons col rest ih =>
      intro g
      by_cases h : col.primaryKey
      · simp [pkFoldW, pkEntries, h, optAdd, ClauseGroup.add, ih]
      · simp [pkFoldW, pkEntries, h, ih]

/-- With no primary-key clause to synthesize, the lazily created group is
never created. -/
theorem pkFoldW_none_nil (m : DbHelperModel) :
    ∀ cols, pkEntries m cols = [] → pkFoldW m none cols = none := by
  intro cols
  induction cols with
  | nil => intro _; rfl
  | cons col rest ih =>
      intro h
      by_cases hp : col.primaryKey
      · simp [pkEntries, hp] at h
      · simp only [pkEntries, hp] at h
        simp [pkFoldW, hp, ih h]

/-- With at least one primary-key clause, the identity loop creates the
group holding exactly the synthesized entries. -/
theorem pkFoldW_none_cons (m : DbHelperModel) :
    ∀ cols, pkEntries m cols ≠ [] → pkFoldW m none cols = some ⟨pkEntries m cols⟩ := by
  intro cols
  induction cols with
  | nil => intro h; exact absurd rfl h
  | cons col rest ih =>
      intro h
      by_cases hp : col.primaryKey
      · simp [pkFoldW, hp, optAdd, ClauseGroup.add, pkFoldW_some, pkEntries]
      · simp only [pkEntries, hp] at h ⊢
        simp only [Bool.false_eq_true, if_false] at h ⊢
        simp [pkFoldW, hp, ih h]

/-- A column list without primary keys synthesizes no identity entry. -/
theorem pkEntries_nil (m : DbHelperModel) :
    ∀ cols, (∀ c ∈ cols, c.primaryKey = false) → pkEntries m cols = [] := by
  intro cols
  induction cols with
  | nil => intro _; rfl
  | cons col rest ih =>
      intro h
      have hc := h col (by simp)
      simp [pkEntries, hc, ih fun c hcm => h c (by simp [hcm])]

/-- The identity loop leaves a builder without primary keys untouched. -/
theorem pkFoldW_no_pk (m : DbHelperModel) :
    ∀ cols (w : Option ClauseGroup), (∀ c ∈ cols, c.primaryKey = false) →
      pkFoldW m w cols = w := by
  intro cols
  induction cols with
  | nil => intro w _; rfl
  | cons col rest ih =>
      intro w h
      have hc := h col (by simp)
      simp [pkFoldW, hc, ih w fun c hcm => h c (by simp [hcm])]

/-- The synthesized identity entries are the primary-key columns mapped to
equality clauses. -/
theorem pkEntries_filter (m : DbHelperModel) :
    ∀ cols, pkEntries m cols =
      (cols.filter fun c => c.primaryKey).map
        (fun c => ClauseEntry.clause ⟨c.name, "=", m.getField c.field, "AND"⟩) := by
  intro cols
  induction cols with
  | nil => rfl
  | cons col rest ih =>
      by_cases h : col.primaryKey
      · simp [pkEntries, List.filter_cons, h, ih]
      · simp [pkEntries, List.filter_cons, h, ih]

/-- The parameter component of a rendering does not depend on the
first-entry flag (which only suppresses the leading connector text). -/
theorem renderEntries_snd_flag (l : List ClauseEntry) (b : Bool) :
    (renderEntries l b).2 = (renderEntries l true).2 := by
  cases l with
  | nil => simp [renderEntries]
  | cons e rest => cases e <;> simp [renderEntries]

/-- Rendering appended entry lists concatenates their parameter lists in
order. -/
theorem renderEntries_append_snd (l1 l2 : List ClauseEntry) :
    ∀ b, (renderEntries (l1 ++ l2) b).2
      = (renderEntries l1 b).2 ++ (renderEntries l2 true).2 := by
  induction l1 with
  | nil =>
      intro b
      simpa [renderEntries] using renderEntries_snd_flag l2 b
  | cons e rest ih =>
      intro b
      cases e with
      | clause c => simp [renderEntries, ih]
      | group es => simp [renderEntries, ih]

/-- The parameters of a clause-only entry list are the clause values in
order. -/
theorem renderEntries_clauses_snd (l : List Clause) :
    ∀ b, (renderEntries (l.map ClauseEntry.clause) b).2 = l.map Clause.value := by
  induction l with
  | nil => intro b; simp [renderEntries]
  | cons c rest ih => intro b; simp [renderEntries, ih]

/-- Merging a rewritten connector with its following space. -/
theorem andSpace (s : String) : "AND" ++ (" " ++ s) = "AND " ++ s := by
  rw [← String.append_assoc, show ("AND" ++ " " : String) = "AND " from rfl]

/-- The empty string is a left identity of append. -/
theorem emptyAppend (s : String) : "" ++ s = s := rfl

/-- Unfolding `joinSep` on a list of at least two elements. -/
theorem joinSep_cons_cons (sep s1 s2 : String) (t : List String) :
    joinSep sep (s1 :: s2 :: t) = s1 ++ sep ++ joinSep sep (s2 :: t) := rfl

/-- Rendering a non-empty AND-connected clause list in non-first position:
every clause carries its `AND` connector. -/
theorem renderEntries_and_false (l : List Clause) :
    (∀ c ∈ l, c.connector = "AND") → l ≠ [] →
      (renderEntries (l.map ClauseEntry.clause) false).1
        = "AND " ++ joinSep " AND " (l.map clauseText) := by
  induction l with
  | nil => intro _ h; exact absurd rfl h
  | cons c rest ih =>
      intro hAND _
      have hc : c.connector = "AND" := hAND c (by simp)
      cases rest with
      | nil => simp [renderEntries, joinSep, hc]
      | cons c2 rest2 =>
          have htail := ih (fun d hd => hAND d (by simp [hd])) (by simp)
          simp only [List.map_cons, renderEntries, List.isEmpty_cons, if_false,
            Bool.false_eq_true] at htail ⊢
          rw [htail, hc, joinSep_cons_cons]
          simp only [String.append_assoc, spaceAnd, andSpace]

/-- Rendering a non-empty AND-connected clause list in first position:
the first clause omits its connector and the rest are ANDed. -/
theorem renderEntries_and_true (l : List Clause) :
    (∀ c ∈ l, c.connector = "AND") → l ≠ [] →
      (renderEntries (l.map ClauseEntry.clause) true).1
        = joinSep " AND " (l.map clauseText) := by
  cases l with
  | nil => intro _ h; exact absurd rfl h
  | cons c rest =>
      intro hAND _
      cases rest with
      | nil => simp [renderEntries, joinSep]
      | cons c2 rest2 =>
          have htail := renderEntries_and_false (c2 :: rest2)
            (fun d hd => hAND d (by simp [hd])) (by simp)
          simp only [List.map_cons, renderEntries, List.isEmpty_cons, if_false,
            Bool.false_eq_true] at htail ⊢
          rw [htail, joinSep_cons_cons]
          simp only [String.append_assoc, spaceAnd, if_true, emptyAppend]

/-- In full mode (no projection) the SET list takes every column and its
value, in declared order. -/
theorem setSelection_full (m : DbHelperModel) (hm : m.__partialWithProjection = none) :
    ∀ cols, setSelection m cols
      = (cols.map Column.name, cols.map fun c => m.getField c.field) := by
  intro cols
  induction cols with
  | nil => simp [setSelection]
  | cons col rest ih => simp [setSelection, hm, ih]

/-- In partial mode a column is kept exactly when it is named in the
projection or its current value is truthy. -/
theorem setSelection_proj (m : DbHelperModel) (proj : List String)
    (hm : m.__partialWithProjection = some proj) :
    ∀ cols, setSelection m cols
      = ((cols.filter fun c => proj.contains c.name || (m.getField c.field).truthy).map Column.name,
         (cols.filter fun c => proj.contains c.name || (m.getField c.field).truthy).map
           fun c => m.getField c.field) := by
  intro cols
  induction cols with
  | nil => simp [setSelection]
  | cons col rest ih =>
      simp only [setSelection, hm, List.filter_cons, ih]
      split <;> simp_all

/-- Every name in the SET list is the name of some metadata column. -/
theorem setSelection_name_mem (m : DbHelperModel) :
    ∀ cols s, s ∈ (setSelection m cols).1 → ∃ c ∈ cols, s = c.name := by
  intro cols
  induction cols with
  | nil => intro s hs; simp [setSelection] at hs
  | cons col rest ih =>
      intro s hs
      simp only [setSelection] at hs
      by_cases hk : (match m.__partialWithProjection with
        | some proj => proj.contains col.name || (m.getField col.field).truthy
        | none => true) = true
      · rw [if_pos hk] at hs
        rcases List.mem_cons.mp hs with h | h
        · exact ⟨col, by simp, h⟩
        · rcases ih s h with ⟨c, hc, rfl⟩
          exact ⟨c, by simp [hc], rfl⟩
      · rw [if_neg hk] at hs
        rcases ih s hs with ⟨c, hc, rfl⟩
        exact ⟨c, by simp [hc], rfl⟩

/-- `charFree` is preserved by appending. -/
theorem charFree_append (ch : Char) (a b : String)
    (ha : charFree ch a) (hb : charFree ch b) : charFree ch (a ++ b) := by
  intro c hc
  rw [String.data_append] at hc
  rcases List.mem_append.mp hc with h | h
  · exact ha c h
  · exact hb c h

/-- `charFree` is preserved by joining parts with a clean separator. -/
theorem charFree_joinSep (ch : Char) (sep : String) (hsep : charFree ch sep) :
    ∀ parts, (∀ s ∈ parts, charFree ch s) → charFree ch (joinSep sep parts) := by
  intro parts
  induction parts with
  | nil => intro _ c hc; simp [joinSep, String.data] at hc
  | cons s rest ih =>
      intro h
      cases rest with
      | nil => simpa [joinSep] using h s (by simp)
      | cons s2 rest2 =>
          rw [joinSep_cons_cons]
          exact charFree_append ch _ _
            (charFree_append ch _ _ (h s (by simp)) hsep)
            (ih fun x hx => h x (by simp [hx]))

/-- A `'W'`-free string cannot contain the ` WHERE` keyword. -/
theorem not_where_infix (s : String) (h : charFree 'W' s) :
    ¬ List.IsInfix (" WHERE".data) s.data := by
  intro hinf
  exact h 'W' (hinf.subset (by decide)) rfl

/-- C1: when the partial projection excludes every column from the SET
list, `build()` still emits one `(?)` placeholder (from the constant
`' = (?) '` template suffix) while contributing no parameter, so the
placeholder count (1) differs from `params.length` (0) — refuting the
invariant at exactly the point the claim highlights. -/
theorem update_build_empty_projection_placeholder_mismatch :
    ((Update mEmptySet false).buildWithTable tEmptySet).1.query = "UPDATE t SET  = (?) "
    ∧ countPlaceholders (((Update mEmptySet false).buildWithTable tEmptySet).1.query) = 1
    ∧ ((Update mEmptySet false).buildWithTable tEmptySet).1.params = [] := by
  have h : ((Update mEmptySet false).buildWithTable tEmptySet).1.query
      = "UPDATE t SET  = (?) " := by
    simp [mEmptySet, tEmptySet, QueryUpdate.buildWithTable, Update, QueryUpdate.whereQ,
      addPkClauses, optAdd, ClauseGroup.add, ClauseGroup.build, renderEntries, DbQuery.append,
      setSelection, DbHelperModel.getField, List.lookup, JsVal.truthy, joinSep, clauseText]
  refine ⟨h, ?_, ?_⟩
  · rw [h]; decide
  · simp [mEmptySet, tEmptySet, QueryUpdate.buildWithTable, Update, QueryUpdate.whereQ,
      addPkClauses, optAdd, ClauseGroup.add, ClauseGroup.build, renderEntries, DbQuery.append,
      setSelection, DbHelperModel.getField, List.lookup, JsVal.truthy, joinSep, clauseText]

/-- C2 counterexample: with a caller-added clause `b = "x"` and row
identity 5, the built parameter order is SET value, then the caller value,
then the identity value — not identity before caller as claimed. -/
theorem update_build_caller_clauses_precede_identity_cex :
    (qCallerWhere.buildWithTable tSingleA).1.params
        = [JsVal.vInt 1, JsVal.vStr "x", JsVal.vInt 5]
    ∧ (qCallerWhere.buildWithTable tSingleA).1.params
        ≠ [JsVal.vInt 1, JsVal.vInt 5, JsVal.vStr "x"] := by
  have h : (qCallerWhere.buildWithTable tSingleA).1.params
      = [JsVal.vInt 1, JsVal.vStr "x", JsVal.vInt 5] := by
    simp [qCallerWhere, mRowid, tSingleA, QueryUpdate.buildWithTable, Update, QueryUpdate.whereQ,
      addPkClauses, optAdd, ClauseGroup.add, ClauseGroup.build, renderEntries, DbQuery.append,
      setSelection, DbHelperModel.getField, List.lookup, JsVal.truthy, joinSep, clauseText]
  exact ⟨h, by rw [h]; decide⟩

/-- C3 counterexample: with the non-null row identity 0 (falsy in
JavaScript) and a single primary key `id = 7`, the emitted WHERE clause is
the primary-key equality, not `rowid = (?)`. -/
theorem update_build_rowid_zero_cex :
    ((Update mRowidZero false).buildWithTable tSingleId).1.query
        = "UPDATE t SET id = (?)  WHERE id = (?)"
    ∧ ((Update mRowidZero false).buildWithTable tSingleId).1.query
        ≠ "UPDATE t SET id = (?)  WHERE rowid = (?)"
    ∧ ((Update mRowidZero false).buildWithTable tSingleId).1.params
        = [JsVal.vInt 7, JsVal.vInt 7] := by
  have h : ((Update mRowidZero false).buildWithTable tSingleId).1.query
      = "UPDATE t SET id = (?)  WHERE id = (?)" := by
    simp [mRowidZero, tSingleId, QueryUpdate.buildWithTable, Update, QueryUpdate.whereQ,
      addPkClauses, optAdd, ClauseGroup.add, ClauseGroup.build, renderEntries, DbQuery.append,
      setSelection, DbHelperModel.getField, List.lookup, JsVal.truthy, joinSep, clauseText]
  refine ⟨h, by rw [h]; decide, ?_⟩
  simp [mRowidZero, tSingleId, QueryUpdate.buildWithTable, Update, QueryUpdate.whereQ,
    addPkClauses, optAdd, ClauseGroup.add, ClauseGroup.build, renderEntries, DbQuery.append,
    setSelection, DbHelperModel.getField, List.lookup, JsVal.truthy, joinSep, clauseText]

/-- C4 counterexample: the SET loop iterates every metadata column, so the
primary-key column `id` also appears in the SET list and its value is
bound twice; `params` has length 4, not the claimed
`["buy milk", false, 7]`. -/
theorem update_build_todo_roundtrip_cex :
    ((Update mTodo false).buildWithTable tTodo).1.params.length = 4
    ∧ ((Update mTodo false).buildWithTable tTodo).1.params
        ≠ [JsVal.vStr "buy milk", JsVal.vBool false, JsVal.vInt 7] := by
  have h : ((Update mTodo false).buildWithTable tTodo).1.params
      = [JsVal.vStr "buy milk", JsVal.vBool false, JsVal.vInt 7, JsVal.vInt 7] := by
    simp [mTodo, tTodo, QueryUpdate.buildWithTable, Update, QueryUpdate.whereQ,
      addPkClauses, optAdd, ClauseGroup.add, ClauseGroup.build, renderEntries, DbQuery.append,
      setSelection, DbHelperModel.getField, List.lookup, JsVal.truthy, joinSep, clauseText]
  exact ⟨by rw [h]; decide, by rw [h]; decide⟩

/-- C4 amended: for the instance `{title:"buy milk", done:false, id:7}`
with single primary key `id`, the built query is
`UPDATE todo SET title = (?), done = (?), id = (?)  WHERE id = (?)` with
params `["buy milk", false, 7, 7]` (the SET list includes the primary-key
column, whose value is bound again by the WHERE clause). -/
theorem update_build_todo_roundtrip :
    ((Update mTodo false).buildWithTable tTodo).1.query
        = "UPDATE todo SET title = (?), done = (?), id = (?)  WHERE id = (?)"
    ∧ ((Update mTodo false).buildWithTable tTodo).1.params
        = [JsVal.vStr "buy milk", JsVal.vBool false, JsVal.vInt 7, JsVal.vInt 7] := by
  constructor <;>
    simp [mTodo, tTodo, QueryUpdate.buildWithTable, Update, QueryUpdate.whereQ,
      addPkClauses, optAdd, ClauseGroup.add, ClauseGroup.build, renderEntries, DbQuery.append,
      setSelection, DbHelperModel.getField, List.lookup, JsVal.truthy, joinSep, clauseText]

/-- C5 counterexample: `build()` folds the identity clause into the
builder's own where-group, so a second `build()` on the same builder
renders the `rowid` predicate twice and appends its value again — the two
returned `DbQuery` values differ. -/
theorem update_build_twice_differs_cex :
    ((Update mRowid false).buildWithTable tSingleA).1.params = [JsVal.vInt 1, JsVal.vInt 5]
    ∧ ((((Update mRowid false).buildWithTable tSingleA).2).buildWithTable tSingleA).1.params
        = [JsVal.vInt 1, JsVal.vInt 5, JsVal.vInt 5]
    ∧ ((((Update mRowid false).buildWithTable tSingleA).2).buildWithTable tSingleA).1
        ≠ ((Update mRowid false).buildWithTable tSingleA).1 := by
  have h1 : (Update mRowid false).buildWithTable tSingleA
      = (⟨"t", "UPDATE", "UPDATE t SET a = (?)  WHERE rowid = (?)", [JsVal.vInt 1, JsVal.vInt 5]⟩,
         ⟨mRowid, false, some ⟨[ClauseEntry.clause ⟨"rowid", "=", JsVal.vInt 5, "AND"⟩]⟩⟩) := by
    simp [mRowid, tSingleA, QueryUpdate.buildWithTable, Update, QueryUpdate.whereQ,
      addPkClauses, optAdd, ClauseGroup.add, ClauseGroup.build, renderEntries, DbQuery.append,
      setSelection, DbHelperModel.getField, List.lookup, JsVal.truthy, joinSep, clauseText]
  have h2 : ((⟨mRowid, false, some ⟨[ClauseEntry.clause ⟨"rowid", "=", JsVal.vInt 5, "AND"⟩]⟩⟩ :
      QueryUpdate).buildWithTable tSingleA).1
      = ⟨"t", "UPDATE", "UPDATE t SET a = (?)  WHERE rowid = (?) AND rowid = (?)",
         [JsVal.vInt 1, JsVal.vInt 5, JsVal.vInt 5]⟩ := by
    simp [mRowid, tSingleA, QueryUpdate.buildWithTable, QueryUpdate.whereQ,
      addPkClauses, optAdd, ClauseGroup.add, ClauseGroup.build, renderEntries, DbQuery.append,
      setSelection, DbHelperModel.getField, List.lookup, JsVal.truthy, joinSep, clauseText]
  refine ⟨by rw [h1], ?_, ?_⟩
  · rw [h1, h2]
  · rw [h1, h2]; decide

/-- C2 amended: for a builder with caller-added where clauses, the built
parameter array lists the SET values first (declared order,
post-filtering), then the caller-added WHERE values, then the synthesized
identity values (which `build()` appends to the group last), matching the
order of the entries in the final where-group. -/
theorem update_build_param_order (m : DbHelperModel) (p : Bool) (g : ClauseGroup)
    (t : TableMeta) :
    ((⟨m, p, some g⟩ : QueryUpdate).buildWithTable t).2.whereClauses
        = some ⟨g.clauses ++ idEntries m t.columnList⟩
    ∧ ((⟨m, p, some g⟩ : QueryUpdate).buildWithTable t).1.params
        = (setSelection m t.columnList).2
          ++ ((renderEntries g.clauses true).2
          ++ (renderEntries (idEntries m t.columnList) true).2) := by
  by_cases hr : (m.__rowid).truthy = true
  · constructor
    · simp [QueryUpdate.buildWithTable, QueryUpdate.whereQ, hr, idEntries, optAdd,
        ClauseGroup.add]
    · simp [QueryUpdate.buildWithTable, QueryUpdate.whereQ, hr, idEntries, optAdd,
        ClauseGroup.add, ClauseGroup.build, DbQuery.append, renderEntries_append_snd]
  · constructor
    · simp [QueryUpdate.buildWithTable, hr, idEntries, addPkClauses_eq, pkFoldW_some]
    · simp [QueryUpdate.buildWithTable, hr, idEntries, addPkClauses_eq, pkFoldW_some,
        ClauseGroup.build, DbQuery.append, renderEntries_append_snd]

/-- C3 amended: for a model whose row identity is truthy, `build()` with no
caller-added clauses emits exactly the single predicate `rowid = (?)`
bound to that value, regardless of how many columns are flagged
primary-key. -/
theorem update_build_truthy_rowid_sole_predicate (m : DbHelperModel) (t : TableMeta)
    (h : (m.__rowid).truthy = true) :
    ((Update m false).buildWithTable t).2.whereClauses
        = some ⟨[ClauseEntry.clause ⟨"rowid", "=", m.__rowid, "AND"⟩]⟩
    ∧ ((Update m false).buildWithTable t).1.query
        = "UPDATE " ++ t.name ++ " SET "
          ++ joinSep " = (?), " (setSelection m t.columnList).1 ++ " = (?) "
          ++ " WHERE rowid = (?)"
    ∧ ((Update m false).buildWithTable t).1.params
        = (setSelection m t.columnList).2 ++ [m.__rowid] := by
  have hb : (Update m false).buildWithTable t
      = (⟨t.name, "UPDATE",
          "UPDATE" ++ " " ++ t.name ++ " SET "
            ++ joinSep " = (?), " (setSelection m t.columnList).1 ++ " = (?) "
            ++ " WHERE" ++ " rowid = (?)",
          (setSelection m t.columnList).2 ++ [m.__rowid]⟩,
         ⟨m, false, some ⟨[ClauseEntry.clause ⟨"rowid", "=", m.__rowid, "AND"⟩]⟩⟩) := by
    simp [QueryUpdate.buildWithTable, Update, QueryUpdate.whereQ, h, optAdd, ClauseGroup.add,
      ClauseGroup.build, DbQuery.append, renderEntries, clauseText]
  refine ⟨by rw [hb], ?_, by rw [hb]⟩
  rw [hb]
  show "UPDATE" ++ " " ++ t.name ++ " SET "
      ++ joinSep " = (?), " (setSelection m t.columnList).1 ++ " = (?) "
      ++ " WHERE" ++ " rowid = (?)" = _
  simp only [String.append_assoc]
  rw [updateSpace, show (" WHERE" ++ " rowid = (?)" : String) = " WHERE rowid = (?)" from rfl]

/-- C3 amended, witness: the truthy row identity 5 yields the single
`rowid = (?)` predicate even though no column is flagged primary-key. -/
theorem update_build_truthy_rowid_sole_predicate_witness :
    ((Update mRowid false).buildWithTable tSingleA).1.query
        = "UPDATE t SET a = (?)  WHERE rowid = (?)"
    ∧ ((Update mRowid false).buildWithTable tSingleA).1.params
        = [JsVal.vInt 1, JsVal.vInt 5] := by
  have h := update_build_truthy_rowid_sole_predicate mRowid tSingleA (by decide)
  exact ⟨h.2.1.trans (by decide), h.2.2.trans (by decide)⟩

/-- C5 amended: two successive `build()` calls on the same builder agree
when no identity clause is synthesized (falsy row identity and no
primary-key column); in general the claim fails because `build()` folds
the identity clauses into the builder's where-group. -/
theorem update_build_idempotent_without_identity (q : QueryUpdate) (t : TableMeta)
    (h : (q.model.__rowid).truthy = false)
    (hpk : ∀ c ∈ t.columnList, c.primaryKey = false) :
    ((q.buildWithTable t).2).buildWithTable t = q.buildWithTable t := by
  obtain ⟨m, p, w⟩ := q
  have h' : (m.__rowid).truthy = false := h
  have hfold : pkFoldW m w t.columnList = w := pkFoldW_no_pk m t.columnList w hpk
  have hstep : ((⟨m, p, w⟩ : QueryUpdate).buildWithTable t).2 = ⟨m, p, w⟩ := by
    cases w with
    | none => simp [QueryUpdate.buildWithTable, h', addPkClauses_eq, hfold]
    | some gg => simp [QueryUpdate.buildWithTable, h', addPkClauses_eq, hfold]
  rw [hstep]

/-- C5 amended, witness: with no row identity and no primary key, building
twice from the same builder yields the same result. -/
theorem update_build_idempotent_without_identity_witness :
    (((Update mPlain false).buildWithTable tSingleA).2).buildWithTable tSingleA
      = (Update mPlain false).buildWithTable tSingleA :=
  update_build_idempotent_without_identity (Update mPlain false) tSingleA
    (by decide) (by decide)

/-- C6: in partial mode with projection `{"name"}` and instance
`{name:"x", age:0}` only `name` reaches the SET list; in partial mode a
column is kept iff it is named in the projection or its value is truthy;
in full mode every column is kept unconditionally, in declared order. -/
theorem update_set_list_projection_filtering :
    (((Update mNamePartial false).buildWithTable tNameAge).1.query = "UPDATE t SET name = (?) "
      ∧ ((Update mNamePartial false).buildWithTable tNameAge).1.params = [JsVal.vStr "x"])
    ∧ (∀ (m : DbHelperModel) (proj : List String) (cols : List Column),
        m.__partialWithProjection = some proj →
        (setSelection m cols).1
          = (cols.filter fun c => proj.contains c.name || (m.getField c.field).truthy).map
              Column.name)
    ∧ (∀ (m : DbHelperModel) (cols : List Column),
        m.__partialWithProjection = none →
        setSelection m cols = (cols.map Column.name, cols.map fun c => m.getField c.field)) := by
  refine ⟨⟨?_, ?_⟩, ?_, ?_⟩
  · simp [mNamePartial, tNameAge, QueryUpdate.buildWithTable, Update, QueryUpdate.whereQ,
      addPkClauses, optAdd, ClauseGroup.add, ClauseGroup.build, renderEntries, DbQuery.append,
      setSelection, DbHelperModel.getField, List.lookup, JsVal.truthy, joinSep, clauseText]
  · simp [mNamePartial, tNameAge, QueryUpdate.buildWithTable, Update, QueryUpdate.whereQ,
      addPkClauses, optAdd, ClauseGroup.add, ClauseGroup.build, renderEntries, DbQuery.append,
      setSelection, DbHelperModel.getField, List.lookup, JsVal.truthy, joinSep, clauseText]
  · intro m proj cols hm
    rw [setSelection_proj m proj hm cols]
  · intro m cols hm
    exact setSelection_full m hm cols

/-- C6, witness: the filtering rules applied to the fixture metadata in
partial and in full mode. -/
theorem update_set_list_projection_filtering_witness :
    (setSelection mNamePartial tNameAge.columnList).1
        = (tNameAge.columnList.filter fun c =>
            (["name"] : List String).contains c.name
              || (mNamePartial.getField c.field).truthy).map Column.name
    ∧ setSelection mNameFull tNameAge.columnList
        = (tNameAge.columnList.map Column.name,
           tNameAge.columnList.map fun c => mNameFull.getField c.field) :=
  ⟨update_set_list_projection_filtering.2.1 mNamePartial ["name"] tNameAge.columnList rfl,
   update_set_list_projection_filtering.2.2 mNameFull tNameAge.columnList rfl⟩

/-- C7: with no (truthy) row identity and no caller-added clauses, the
WHERE clause is exactly one equality per primary-key column, bound to the
field's current value, ANDed in declared column order. -/
theorem update_build_primary_key_where (m : DbHelperModel) (t : TableMeta)
    (h : (m.__rowid).truthy = false)
    (hpk : t.columnList.filter (fun c => c.primaryKey) ≠ []) :
    ((Update m false).buildWithTable t).1.query
        = "UPDATE " ++ t.name ++ " SET "
          ++ joinSep " = (?), " (setSelection m t.columnList).1 ++ " = (?) "
          ++ " WHERE "
          ++ joinSep " AND "
              ((t.columnList.filter fun c => c.primaryKey).map fun c => c.name ++ " = (?)")
    ∧ ((Update m false).buildWithTable t).1.params
        = (setSelection m t.columnList).2
          ++ (t.columnList.filter fun c => c.primaryKey).map fun c => m.getField c.field := by
  have hentries : pkEntries m t.columnList
      = ((t.columnList.filter fun c => c.primaryKey).map
          fun c => (⟨c.name, "=", m.getField c.field, "AND"⟩ : Clause)).map
            ClauseEntry.clause := by
    rw [pkEntries_filter]
    simp [List.map_map, Function.comp]
  have hne : pkEntries m t.columnList ≠ [] := by
    rw [hentries]
    simpa using hpk
  have hfold := pkFoldW_none_cons m t.columnList hne
  have hb : (Update m false).buildWithTable t
      = (DbQuery.append
          ⟨t.name, "UPDATE",
            ("UPDATE" ++ " " ++ t.name ++ " SET "
              ++ joinSep " = (?), " (setSelection m t.columnList).1 ++ " = (?) ") ++ " WHERE",
            (setSelection m t.columnList).2⟩
          (ClauseGroup.build ⟨pkEntries m t.columnList⟩),
         ⟨m, false, some ⟨pkEntries m t.columnList⟩⟩) := by
    simp [QueryUpdate.buildWithTable, Update, addPkClauses_eq, h, hfold]
  have hie : (pkEntries m t.columnList).isEmpty = false := by
    simpa [List.isEmpty_iff] using hne
  have htext : (ClauseGroup.build ⟨pkEntries m t.columnList⟩).query
      = " " ++ joinSep " AND "
          ((t.columnList.filter fun c => c.primaryKey).map fun c => c.name ++ " = (?)") := by
    show (if (pkEntries m t.columnList).isEmpty then ""
          else " " ++ (renderEntries (pkEntries m t.columnList) true).1) = _
    rw [hie, if_neg (by simp), hentries,
      renderEntries_and_true _
        (by intro c hc; rcases List.mem_map.mp hc with ⟨x, hx, rfl⟩; rfl)
        (by simpa using hpk)]
    simp [List.map_map, Function.comp_def, clauseText_eq]
  have hparams : (ClauseGroup.build ⟨pkEntries m t.columnList⟩).params
      = (t.columnList.filter fun c => c.primaryKey).map fun c => m.getField c.field := by
    show (renderEntries (pkEntries m t.columnList) true).2 = _
    rw [hentries, renderEntries_clauses_snd]
    simp [List.map_map, Function.comp]
  constructor
  · rw [hb]
    show (("UPDATE" ++ " " ++ t.name ++ " SET "
        ++ joinSep " = (?), " (setSelection m t.columnList).1 ++ " = (?) ") ++ " WHERE")
        ++ (ClauseGroup.build ⟨pkEntries m t.columnList⟩).query = _
    rw [htext]
    simp only [String.append_assoc]
    rw [updateSpace, whereSpace]
  · rw [hb]
    show (setSelection m t.columnList).2 ++ (ClauseGroup.build ⟨pkEntries m t.columnList⟩).params = _
    rw [hparams]

/-- C7, witness: two primary-key columns produce the two ANDed equality
predicates, each bound to the corresponding field value. -/
theorem update_build_primary_key_where_witness :
    ((Update mTwoPk false).buildWithTable tTwoPk).1.query
        = "UPDATE t SET a = (?), b = (?)  WHERE a = (?) AND b = (?)"
    ∧ ((Update mTwoPk false).buildWithTable tTwoPk).1.params
        = [JsVal.vInt 1, JsVal.vInt 2, JsVal.vInt 1, JsVal.vInt 2] := by
  have h := update_build_primary_key_where mTwoPk tTwoPk (by decide) (by decide)
  exact ⟨h.1.trans (by decide), h.2.trans (by decide)⟩

/-- C8: with no truthy row identity, no primary key and no caller-added
clause, `build()` still returns a `DbQuery`; nothing is appended after the
SET list, no where-group exists, and (for metadata whose identifiers do
not use the character `W`) the text contains no ` WHERE` keyword. -/
theorem update_build_no_identity_no_where (m : DbHelperModel) (t : TableMeta)
    (h : (m.__rowid).truthy = false)
    (hpk : ∀ c ∈ t.columnList, c.primaryKey = false) :
    ((Update m false).buildWithTable t).1.query
        = "UPDATE " ++ t.name ++ " SET "
          ++ joinSep " = (?), " (setSelection m t.columnList).1 ++ " = (?) "
    ∧ ((Update m false).buildWithTable t).2.whereClauses = none
    ∧ (charFree 'W' t.name → (∀ c ∈ t.columnList, charFree 'W' c.name) →
        ¬ List.IsInfix (" WHERE".data) (((Update m false).buildWithTable t).1.query.data)) := by
  have hnil := pkEntries_nil m t.columnList hpk
  have hfold := pkFoldW_none_nil m t.columnList hnil
  have hb : (Update m false).buildWithTable t
      = (⟨t.name, "UPDATE",
          "UPDATE" ++ " " ++ t.name ++ " SET "
            ++ joinSep " = (?), " (setSelection m t.columnList).1 ++ " = (?) ",
          (setSelection m t.columnList).2⟩, ⟨m, false, none⟩) := by
    simp [QueryUpdate.buildWithTable, Update, addPkClauses_eq, h, hfold]
  have hq : ((Update m false).buildWithTable t).1.query
      = "UPDATE " ++ t.name ++ " SET "
        ++ joinSep " = (?), " (setSelection m t.columnList).1 ++ " = (?) " := by
    rw [hb]
    show "UPDATE" ++ " " ++ t.name ++ " SET "
        ++ joinSep " = (?), " (setSelection m t.columnList).1 ++ " = (?) " = _
    simp only [String.append_assoc]
    rw [updateSpace]
  refine ⟨hq, by rw [hb], ?_⟩
  intro hn hcols
  rw [hq]
  apply not_where_infix
  refine charFree_append _ _ _
    (charFree_append _ _ _
      (charFree_append _ _ _ (charFree_append _ _ _ (by decide) hn) (by decide)) ?_)
    (by decide)
  apply charFree_joinSep _ _ (by decide)
  intro s hs
  rcases setSelection_name_mem m t.columnList s hs with ⟨c, hc, rfl⟩
  exact hcols c hc

/-- C8, witness: the fixture with one non-primary-key column produces the
bare SET-only statement with no ` WHERE` keyword. -/
theorem update_build_no_identity_no_where_witness :
    ((Update mPlain false).buildWithTable tSingleA).1.query = "UPDATE t SET a = (?) "
    ∧ ¬ List.IsInfix (" WHERE".data)
        (((Update mPlain false).buildWithTable tSingleA).1.query.data) := by
  have h := update_build_no_identity_no_where mPlain tSingleA (by decide) (by decide)
  exact ⟨h.1.trans (by decide), h.2.2 (by decide) (by decide)⟩

/-- C9: when the metadata lookup fails, `build()` propagates the failure
and no `DbQuery` is constructed. -/
theorem update_build_metadata_failure_propagates
    (registry : DbHelperModel → Option TableMeta) (q : QueryUpdate)
    (h : getModel registry q.model = none) :
    QueryUpdate.build registry q = none := by
  simp [QueryUpdate.build, h]

/-- C9, witness: an empty registry makes `build()` fail for the fixture
model. -/
theorem update_build_metadata_failure_propagates_witness :
    QueryUpdate.build (fun _ => none) (Update mPlain false) = none :=
  update_build_metadata_failure_propagates (fun _ => none) (Update mPlain false) rfl

/-- C10: the `partial` constructor argument is never read — builders that
differ only in that flag produce the same `DbQuery`, both through the
post-lookup body and through `build()` with any registry. -/
theorem update_build_ignores_partial_flag (m : DbHelperModel) :
    (∀ (w : Option ClauseGroup) (t : TableMeta),
        ((⟨m, true, w⟩ : QueryUpdate).buildWithTable t).1
          = ((⟨m, false, w⟩ : QueryUpdate).buildWithTable t).1)
    ∧ ∀ (registry : DbHelperModel → Option TableMeta),
        Option.map Prod.fst (QueryUpdate.build registry (Update m true))
          = Option.map Prod.fst (QueryUpdate.build registry (Update m false)) := by
  have hfst : ∀ (w : Option ClauseGroup) (t : TableMeta),
      ((⟨m, true, w⟩ : QueryUpdate).buildWithTable t).1
        = ((⟨m, false, w⟩ : QueryUpdate).buildWithTable t).1 := by
    intro w t
    by_cases hr : (m.__rowid).truthy = true
    · simp [QueryUpdate.buildWithTable, QueryUpdate.whereQ, hr]
    · cases hw : pkFoldW m w t.columnList with
      | none => simp [QueryUpdate.buildWithTable, hr, addPkClauses_eq, hw]
      | some gg => simp [QueryUpdate.buildWithTable, hr, addPkClauses_eq, hw]
  refine ⟨hfst, ?_⟩
  intro registry
  cases hg : registry m with
  | none => simp [QueryUpdate.build, getModel, Update, hg]
  | some tb =>
      simpa [QueryUpdate.build, getModel, Update, hg] using hfst none tb
